import Mathlib

/-!
Shallow embedding of the `cli_test` declarative test runner (Rust sources
`src/lib.rs`, `src/expectations.rs`, `src/errors.rs`).

Modelling conventions:
- Rust `String` values and captured byte streams are both modelled as their
  UTF-8 byte sequences (`List Nat`).  `String::from_utf8` succeeds exactly on
  valid UTF-8 and returns the same bytes, so string equality coincides with
  byte-sequence equality; `utf8Valid` below implements the UTF-8 validity
  check and `from_utf8` models `String::from_utf8(..)?` with the
  `From<FromUtf8Error> for CliError` conversion.
- `i32` exit codes are modelled as `Int` (only equality tests occur, so no
  wrap-around arithmetic is needed).
- Subprocess spawning (`Command::new("bash").arg("-c").arg(..).output()`) is
  an external collaborator: it is modelled as a function `exec : Test → Output`
  supplied to the orchestrator, and a `spawned` counter in the run state
  records how many commands have been executed (needed to state the spec's
  "zero commands executed" properties).  YAML parsing of the declarations
  file is likewise external and out of scope; `run` is modelled from the
  parsed `Vec<Test>` onward.
- Rust panics (the `output.status.code().unwrap()` in `run_test`) are
  modelled as `Option.none` results.
-/

namespace CliTest

/-- Text as its UTF-8 byte sequence. -/
abbrev Str := List Nat

/-- A UTF-8 continuation byte: `0x80 ..= 0xBF`. -/
def contByte (b : Nat) : Bool := 0x80 ≤ b && b ≤ 0xBF

/-- Validity of a byte sequence as UTF-8, as checked by Rust's
`String::from_utf8` (shortest-form encodings only, surrogates and
code points above `U+10FFFF` rejected). -/
def utf8Valid : List Nat → Bool
  | [] => true
  | b0 :: rest =>
    if b0 ≤ 0x7F then
      utf8Valid rest
    else if 0xC2 ≤ b0 && b0 ≤ 0xDF then
      match rest with
      | b1 :: rest1 => contByte b1 && utf8Valid rest1
      | [] => false
    else if b0 = 0xE0 then
      match rest with
      | b1 :: b2 :: rest2 => (0xA0 ≤ b1 && b1 ≤ 0xBF) && contByte b2 && utf8Valid rest2
      | _ => false
    else if (0xE1 ≤ b0 && b0 ≤ 0xEC) || b0 = 0xEE || b0 = 0xEF then
      match rest with
      | b1 :: b2 :: rest2 => contByte b1 && contByte b2 && utf8Valid rest2
      | _ => false
    else if b0 = 0xED then
      match rest with
      | b1 :: b2 :: rest2 => (0x80 ≤ b1 && b1 ≤ 0x9F) && contByte b2 && utf8Valid rest2
      | _ => false
    else if b0 = 0xF0 then
      match rest with
      | b1 :: b2 :: b3 :: rest3 =>
        (0x90 ≤ b1 && b1 ≤ 0xBF) && contByte b2 && contByte b3 && utf8Valid rest3
      | _ => false
    else if 0xF1 ≤ b0 && b0 ≤ 0xF3 then
      match rest with
      | b1 :: b2 :: b3 :: rest3 =>
        contByte b1 && contByte b2 && contByte b3 && utf8Valid rest3
      | _ => false
    else if b0 = 0xF4 then
      match rest with
      | b1 :: b2 :: b3 :: rest3 =>
        (0x80 ≤ b1 && b1 ≤ 0x8F) && contByte b2 && contByte b3 && utf8Valid rest3
      | _ => false
    else
      false

/-- The `Test` record of `lib.rs` (deserialized from one YAML object):
`test` (name), `in` (command), optional `out`, `err`, `exit_code`. -/
structure Test where
  name : Str
  input : Str
  out : Option Str
  err : Option Str
  exit_code : Option Int
deriving DecidableEq

/-- `std::process::Output` as consumed by the core: captured stdout and
stderr bytes and `status.code()` (absent when signal-terminated). -/
structure Output where
  stdout : Str
  stderr : Str
  exit_code : Option Int
deriving DecidableEq

/-- `ValidationError` of `lib.rs` / `errors.rs`: a single nullary variant,
carrying no test name. -/
inductive ValidationError where
  | missingExitCode
deriving DecidableEq

/-- `CliError` of `lib.rs` / `errors.rs`.  The `Io`/`Yaml`/`Utf8` payloads
(borrowed library error values) carry no information the core inspects, so
they are dropped. -/
inductive CliError where
  | ioError
  | yamlError
  | utf8Error
  | validation (e : ValidationError)
deriving DecidableEq

/-- `String::from_utf8(bytes)?` with the `From<FromUtf8Error> for CliError`
conversion: succeeds (with the same bytes) exactly on valid UTF-8. -/
def from_utf8 (bytes : List Nat) : Except CliError Str :=
  if utf8Valid bytes then .ok bytes else .error .utf8Error

/-- `Expectation<T>` (both `lib.rs` and `expectations.rs`): an
expected/actual pair. -/
structure Expectation (α : Type) where
  expected : α
  actual : α
deriving DecidableEq

/-- `FailedExpectation` of `expectations.rs` (four variants, including
`MissingExitCode`). -/
inductive FailedExpectation where
  | stdOut (e : Expectation Str)
  | stdErr (e : Expectation Str)
  | exitCode (e : Expectation Int)
  | missingExitCode
deriving DecidableEq

/-- `FailedExpectation` of `lib.rs` (three variants, no `MissingExitCode`). -/
inductive LibFailedExpectation where
  | stdOut (e : Expectation Str)
  | stdErr (e : Expectation Str)
  | exitCode (e : Expectation Int)
deriving DecidableEq

/-- The injection of `lib.rs`'s failed-expectation variants into
`expectations.rs`'s (matching variant to variant, payload to payload). -/
def liftLib : LibFailedExpectation → FailedExpectation
  | .stdOut e => .stdOut e
  | .stdErr e => .stdErr e
  | .exitCode e => .exitCode e

/-- `verify_stdout` of `expectations.rs`: emits a `StdOut` failed
expectation when `out` is set and differs from actual stdout. -/
def verify_stdout (test : Test) (stdout : Str) : Option FailedExpectation :=
  match test.out with
  | some expected_out =>
    if stdout ≠ expected_out then
      some (.stdOut ⟨expected_out, stdout⟩)
    else
      none
  | none => none

/-- `verify_stderr` of `expectations.rs`. -/
def verify_stderr (test : Test) (stderr : Str) : Option FailedExpectation :=
  match test.err with
  | some expected_err =>
    if stderr ≠ expected_err then
      some (.stdErr ⟨expected_err, stderr⟩)
    else
      none
  | none => none

/-- `verify_exit_code` of `expectations.rs`: the arms are, in order,
`(Some expected, Some actual) if actual != expected`, `(_, None)`, catch-all.
Note the second arm fires whenever the actual exit code is absent, even if
`test.exit_code` is `None`. -/
def verify_exit_code (test : Test) (exit_code : Option Int) : Option FailedExpectation :=
  match test.exit_code, exit_code with
  | some expected_exit_code, some actual =>
    if actual ≠ expected_exit_code then
      some (.exitCode ⟨expected_exit_code, actual⟩)
    else
      none
  | _, none => some .missingExitCode
  | _, _ => none

/-- `verify_expectations` of `expectations.rs`: decode both streams
(propagating UTF-8 failures as `CliError`), then push the result of each
channel check, stdout first, then stderr, then exit code. -/
def verify_expectations (test : Test) (output : Output) :
    Except CliError (List FailedExpectation) := do
  let stdout ← from_utf8 output.stdout
  let stderr ← from_utf8 output.stderr
  let exit_code := output.exit_code
  return (verify_stdout test stdout).toList ++ (verify_stderr test stderr).toList ++
    (verify_exit_code test exit_code).toList

/-- `TestCounts` of `lib.rs`. -/
structure TestCounts where
  passed : Nat
  failed : Nat
deriving DecidableEq

/-- `Failure` of `lib.rs`: name, 1-based failure ordinal, and the ordered
failed expectations. -/
structure Failure where
  name : Str
  failure_number : Nat
  failed_expectations : List LibFailedExpectation
deriving DecidableEq

/-- The orchestrator's mutable state in `run` of `lib.rs` (`test_counts` and
`failures`), extended with a `spawned` counter instrumenting how many
commands the external executor has run. -/
structure RunState where
  counts : TestCounts
  failures : List Failure
  spawned : Nat
deriving DecidableEq

/-- `TestState` of `lib.rs`. -/
inductive TestState where
  | passed
  | failed
deriving DecidableEq

/-- `validate_test` of `lib.rs`: rejects `err: Some(_)` with
`exit_code: None`. -/
def validate_test (test : Test) : Except CliError Unit :=
  match test.err, test.exit_code with
  | some _, none => .error (.validation .missingExitCode)
  | _, _ => .ok ()

/-- The inline per-channel checks of `run_test` in `lib.rs` (lines 243-275),
on already-decoded streams: conditional pushes for stdout and stderr, then,
if `exit_code` is expected, `output.status.code().unwrap()` — a panic
(`none`) when the actual exit code is absent. -/
def libChecks (test : Test) (stdout stderr : Str) (exit_code : Option Int) :
    Option (List LibFailedExpectation) :=
  let outFails : List LibFailedExpectation :=
    match test.out with
    | some expected_out =>
      if stdout ≠ expected_out then [.stdOut ⟨expected_out, stdout⟩] else []
    | none => []
  let errFails : List LibFailedExpectation :=
    match test.err with
    | some expected_err =>
      if stderr ≠ expected_err then [.stdErr ⟨expected_err, stderr⟩] else []
    | none => []
  match test.exit_code with
  | some expected_exit =>
    match exit_code with
    | some actual_exit_code =>
      some (outFails ++ errFails ++
        (if expected_exit ≠ actual_exit_code then
          [.exitCode ⟨expected_exit, actual_exit_code⟩]
        else
          []))
    | none => none
  | none => some (outFails ++ errFails)

/-- `run_test` of `lib.rs`: spawn the command (incrementing the spawn
counter) and capture its output, then `validate_test`, then decode stdout,
run the stdout check, decode stderr, run the stderr and exit-code checks
(`libChecks`), and finally update the tallies and failure list.  Returns
the updated state with the `Result`; `none` models the `unwrap` panic.
Errors propagate before any tally or failure-list mutation. -/
def run_test (exec : Test → Output) (test : Test) (s : RunState) :
    Option (RunState × Except CliError Unit) :=
  match validate_test test with
  | .error e => some (⟨s.counts, s.failures, s.spawned + 1⟩, .error e)
  | .ok _ =>
    match from_utf8 (exec test).stdout with
    | .error e => some (⟨s.counts, s.failures, s.spawned + 1⟩, .error e)
    | .ok stdout =>
      match from_utf8 (exec test).stderr with
      | .error e => some (⟨s.counts, s.failures, s.spawned + 1⟩, .error e)
      | .ok stderr =>
        match libChecks test stdout stderr (exec test).exit_code with
        | none => none
        | some failed_expectations =>
          if failed_expectations.length = 0 then
            some (⟨⟨s.counts.passed + 1, s.counts.failed⟩, s.failures, s.spawned + 1⟩, .ok ())
          else
            some (⟨⟨s.counts.passed, s.counts.failed + 1⟩,
              s.failures ++ [⟨test.name, s.counts.failed + 1, failed_expectations⟩],
              s.spawned + 1⟩, .ok ())

/-- The `for test in tests { run_test(..)? }` loop of `run` in `lib.rs`:
processes tests in declaration order, stopping at the first error (the
state reached so far is kept) or panic. -/
def runLoop (exec : Test → Output) : List Test → RunState →
    Option (RunState × Except CliError Unit)
  | [], s => some (s, .ok ())
  | t :: ts, s =>
    match run_test exec t s with
    | none => none
    | some (s', .error e) => some (s', .error e)
    | some (s', .ok _) => runLoop exec ts s'

/-- `run` of `lib.rs`, modelled from the parsed test list onward: zeroed
tallies, the per-test loop, then `Passed` iff the failed tally is zero.
The final state (tallies, failures, spawn count) is returned alongside the
`Result` so properties about it can be stated. -/
def run (exec : Test → Output) (tests : List Test) :
    Option (RunState × Except CliError TestState) :=
  match runLoop exec tests ⟨⟨0, 0⟩, [], 0⟩ with
  | none => none
  | some (s, .error e) => some (s, .error e)
  | some (s, .ok _) =>
    match s.counts.failed with
    | 0 => some (s, .ok .passed)
    | _ => some (s, .ok .failed)

/-- Channel index of a failed expectation: stdout 0, stderr 1, exit code 2
(both `ExitCode` and `MissingExitCode` belong to the exit-code channel). -/
def channelIdx : FailedExpectation → Nat
  | .stdOut _ => 0
  | .stdErr _ => 1
  | .exitCode _ => 2
  | .missingExitCode => 2

/-- Whether a failed expectation is a `StdOut` mismatch. -/
def isStdOutFail : FailedExpectation → Bool
  | .stdOut _ => true
  | _ => false

/-- The orchestrator-state invariant of claim C9: the failure list is as
long as the failed tally and the k-th failure record (0-based k) carries
ordinal k+1. -/
def StateInv (s : RunState) : Prop :=
  s.failures.length = s.counts.failed ∧
  ∀ k (h : k < s.failures.length), (s.failures.get ⟨k, h⟩).failure_number = k + 1

/-! Helper lemmas about the embedded definitions. -/

/-- On valid UTF-8 streams, `verify_expectations` succeeds with the three
channel checks concatenated in order. -/
theorem verify_expectations_eq (t : Test) (out : Output)
    (h1 : utf8Valid out.stdout = true) (h2 : utf8Valid out.stderr = true) :
    verify_expectations t out =
      .ok ((verify_stdout t out.stdout).toList ++ (verify_stderr t out.stderr).toList ++
        (verify_exit_code t out.exit_code).toList) := by
  simp [verify_expectations, from_utf8, h1, h2]
  rfl

/-- `verify_stdout` either emits nothing or one `StdOut` mismatch with the
verbatim expected/actual pair, the latter only when `out` is set. -/
theorem verify_stdout_shape (t : Test) (s : Str) :
    verify_stdout t s = none ∨
      ∃ e, t.out = some e ∧ s ≠ e ∧ verify_stdout t s = some (.stdOut ⟨e, s⟩) := by
  rcases ho : t.out with _ | e
  · left; simp [verify_stdout, ho]
  · by_cases h : s = e
    · left; simp [verify_stdout, ho, h]
    · right; exact ⟨e, rfl, h, by simp [verify_stdout, ho, h]⟩

/-- `verify_stderr` either emits nothing or one `StdErr` mismatch with the
verbatim expected/actual pair, the latter only when `err` is set. -/
theorem verify_stderr_shape (t : Test) (s : Str) :
    verify_stderr t s = none ∨
      ∃ e, t.err = some e ∧ s ≠ e ∧ verify_stderr t s = some (.stdErr ⟨e, s⟩) := by
  rcases ho : t.err with _ | e
  · left; simp [verify_stderr, ho]
  · by_cases h : s = e
    · left; simp [verify_stderr, ho, h]
    · right; exact ⟨e, rfl, h, by simp [verify_stderr, ho, h]⟩

/-- `verify_exit_code` emits nothing, or an `ExitCode` mismatch (only when
both codes are present and differ), or `MissingExitCode` (exactly when the
actual exit code is absent). -/
theorem verify_exit_code_shape (t : Test) (c : Option Int) :
    verify_exit_code t c = none ∨
      (∃ e a, t.exit_code = some e ∧ c = some a ∧ a ≠ e ∧
        verify_exit_code t c = some (.exitCode ⟨e, a⟩)) ∨
      (c = none ∧ verify_exit_code t c = some .missingExitCode) := by
  rcases he : t.exit_code with _ | e <;> rcases hc : c with _ | a
  · right; right; exact ⟨rfl, by simp [verify_exit_code, he]⟩
  · left; simp [verify_exit_code, he]
  · right; right; exact ⟨rfl, by simp [verify_exit_code, he]⟩
  · by_cases h : a = e
    · left; simp [verify_exit_code, he, h]
    · right; left; exact ⟨e, a, rfl, rfl, h, by simp [verify_exit_code, he, h]⟩

/-- Every `run_test` step that returns a state has spawned exactly one more
command. -/
theorem run_test_spawned (exec : Test → Output) (t : Test) (s s' : RunState)
    (r : Except CliError Unit) (h : run_test exec t s = some (s', r)) :
    s'.spawned = s.spawned + 1 := by
  unfold run_test at h
  repeat' split at h
  all_goals simp at h
  all_goals rw [← h.1]

/-- A test with `err` set and `exit_code` unset makes `run_test` return the
`MissingExitCode` validation error, with the tallies and failure list
untouched and the command spawned. -/
theorem run_test_validation_error (exec : Test → Output) (t : Test) (s : RunState)
    (x : Str) (herr : t.err = some x) (hexit : t.exit_code = none) :
    run_test exec t s = some (⟨s.counts, s.failures, s.spawned + 1⟩,
      .error (.validation .missingExitCode)) := by
  have hv : validate_test t = .error (.validation .missingExitCode) := by
    simp [validate_test, herr, hexit]
  unfold run_test
  rw [hv]

/-- The per-test loop over an appended batch runs the first part and, when
it finishes cleanly, continues with the second from the reached state. -/
theorem runLoop_append (exec : Test → Output) (as bs : List Test) (s : RunState) :
    runLoop exec (as ++ bs) s =
      match runLoop exec as s with
      | none => none
      | some (s', .error e) => some (s', .error e)
      | some (s', .ok _) => runLoop exec bs s' := by
  induction as generalizing s with
  | nil => simp [runLoop]
  | cons t ts ih =>
    rw [List.cons_append]
    simp only [runLoop]
    rcases h : run_test exec t s with _ | ⟨s', r⟩
    · rfl
    · rcases r with e | u
      · rfl
      · exact ih s'

/-- A cleanly finishing loop spawns exactly one command per test. -/
theorem runLoop_spawned (exec : Test → Output) (ts : List Test) (s s' : RunState)
    (h : runLoop exec ts s = some (s', .ok ())) :
    s'.spawned = s.spawned + ts.length := by
  induction ts generalizing s with
  | nil =>
    simp [runLoop] at h
    simp [← h]
  | cons t ts ih =>
    simp only [runLoop] at h
    rcases hr : run_test exec t s with _ | ⟨s1, r⟩ <;> rw [hr] at h
    · exact absurd h (by simp)
    · rcases r with e | u
      · exact absurd h (by simp)
      · have h1 := run_test_spawned exec t s s1 (.ok u) hr
        have h2 := ih s1 h
        simp only [List.length_cons]
        omega

/-! Claim theorems. -/

/-- C1, counterexample: a TestCase with no expectations set (`out`, `err`,
`exit_code` all absent) run against an ExecutionResult whose exit code is
absent does NOT verify to an empty mismatch sequence — `verify_expectations`
emits `MissingExitCode`, because the `(_, None)` arm of `verify_exit_code`
fires even with no exit-code expectation. -/
theorem c1_counterexample :
    (⟨[116], [105], none, none, none⟩ : Test).out = none ∧
      (⟨[116], [105], none, none, none⟩ : Test).err = none ∧
      (⟨[116], [105], none, none, none⟩ : Test).exit_code = none ∧
      verify_expectations ⟨[116], [105], none, none, none⟩ ⟨[], [], none⟩
        = .ok [.missingExitCode] :=
  ⟨rfl, rfl, rfl, rfl⟩

/-- C1, amended: for a TestCase whose `expectedExitCode` is absent, the
exit-code check emits nothing when `result.exitCode` is present, but emits
`MissingExitCode` when `result.exitCode` is absent; consequently a TestCase
with zero expectations set verifies to the empty mismatch sequence exactly
when the result carries an exit code. -/
theorem c1_exit_code_unchecked (t : Test) (out : Output)
    (hexit : t.exit_code = none)
    (h1 : utf8Valid out.stdout = true) (h2 : utf8Valid out.stderr = true) :
    verify_exit_code t out.exit_code
        = (if out.exit_code.isSome then none else some .missingExitCode) ∧
      (t.out = none → t.err = none →
        verify_expectations t out
          = .ok (if out.exit_code.isSome then [] else [.missingExitCode])) := by
  constructor
  · rcases hc : out.exit_code with _ | a <;> simp [verify_exit_code, hexit, hc]
  · intro ho he
    rw [verify_expectations_eq t out h1 h2]
    rcases hc : out.exit_code with _ | a <;>
      simp [verify_stdout, verify_stderr, verify_exit_code, ho, he, hexit, hc]

/-- C1, witness: instance of `c1_exit_code_unchecked` for a no-expectation
TestCase and a result with exit code 0. -/
theorem c1_exit_code_unchecked_witness :
    verify_exit_code ⟨[119], [99], none, none, none⟩ (some 0)
        = (if (some (0 : Int)).isSome then none else some FailedExpectation.missingExitCode) ∧
      ((⟨[119], [99], none, none, none⟩ : Test).out = none →
        (⟨[119], [99], none, none, none⟩ : Test).err = none →
        verify_expectations ⟨[119], [99], none, none, none⟩ ⟨[104], [], some 0⟩
          = .ok (if (some (0 : Int)).isSome then [] else [.missingExitCode])) :=
  c1_exit_code_unchecked ⟨[119], [99], none, none, none⟩ ⟨[104], [], some 0⟩ rfl
    (by decide) (by decide)

/-- C4: with an exit-code expectation set and no actual exit code,
`verify_expectations` completes normally, its mismatch list contains
`MissingExitCode`, and it contains no `ExitCodeMismatch`. -/
theorem c4_missing_exit_code (t : Test) (out : Output) (e : Int)
    (hexp : t.exit_code = some e) (hact : out.exit_code = none)
    (h1 : utf8Valid out.stdout = true) (h2 : utf8Valid out.stderr = true) :
    ∃ l, verify_expectations t out = .ok l ∧
      FailedExpectation.missingExitCode ∈ l ∧
      ∀ p : Expectation Int, FailedExpectation.exitCode p ∉ l := by
  rw [verify_expectations_eq t out h1 h2]
  have hx : verify_exit_code t out.exit_code = some .missingExitCode := by
    simp [verify_exit_code, hexp, hact]
  refine ⟨_, rfl, ?_, ?_⟩
  · rw [hx]; simp
  · intro p
    rcases verify_stdout_shape t out.stdout with hs | ⟨a, _, _, hs⟩ <;>
      rcases verify_stderr_shape t out.stderr with ht | ⟨b, _, _, ht⟩ <;>
        simp [hs, ht, hx]

/-- C4, witness: a TestCase expecting exit code 3 against a
signal-terminated result. -/
theorem c4_missing_exit_code_witness :
    ∃ l, verify_expectations ⟨[101], [99], none, none, some 3⟩ ⟨[], [], none⟩ = .ok l ∧
      FailedExpectation.missingExitCode ∈ l ∧
      ∀ p : Expectation Int, FailedExpectation.exitCode p ∉ l :=
  c4_missing_exit_code ⟨[101], [99], none, none, some 3⟩ ⟨[], [], none⟩ 3 rfl rfl rfl rfl

/-- C6: with `out` set and actual stdout differing under exact byte-for-byte
equality, `verify_expectations` emits exactly one `StdOut` mismatch, and it
carries the expected and actual strings verbatim. -/
theorem c6_stdout_verbatim (t : Test) (out : Output) (e : Str)
    (hout : t.out = some e) (hne : out.stdout ≠ e)
    (h1 : utf8Valid out.stdout = true) (h2 : utf8Valid out.stderr = true) :
    ∃ l, verify_expectations t out = .ok l ∧
      l.filter isStdOutFail = [.stdOut ⟨e, out.stdout⟩] := by
  rw [verify_expectations_eq t out h1 h2]
  have hs : verify_stdout t out.stdout = some (.stdOut ⟨e, out.stdout⟩) := by
    simp [verify_stdout, hout, hne]
  refine ⟨_, rfl, ?_⟩
  rcases verify_stderr_shape t out.stderr with ht | ⟨b, _, _, ht⟩ <;>
    rcases verify_exit_code_shape t out.exit_code with hx | ⟨a, c, _, _, _, hx⟩ | ⟨_, hx⟩ <;>
      simp [hs, ht, hx, isStdOutFail, List.filter_append]

/-- C6, witness: expected stdout `"x"`, actual `"w"`. -/
theorem c6_stdout_verbatim_witness :
    ∃ l, verify_expectations ⟨[98], [99], some [120], none, none⟩ ⟨[119], [], some 0⟩ = .ok l ∧
      l.filter isStdOutFail = [.stdOut ⟨[120], [119]⟩] :=
  c6_stdout_verbatim ⟨[98], [99], some [120], none, none⟩ ⟨[119], [], some 0⟩ [120] rfl
    (by decide) (by decide) rfl

/-- C5, counterexample: for a TestCase with no expectations set, the
exit-code channel still contributes a mismatch (`MissingExitCode`) when the
result's exit code is absent, so a channel can contribute a mismatch with
its expectation absent. -/
theorem c5_counterexample :
    (⟨[110], [99], none, none, none⟩ : Test).exit_code = none ∧
      verify_expectations ⟨[110], [99], none, none, none⟩ ⟨[97], [98], none⟩
        = .ok [.missingExitCode] :=
  ⟨rfl, rfl⟩

/-- C5, amended: `verify_expectations` lists at most one mismatch per
channel in the fixed order stdout, stderr, exit code (the mapped channel
indices are strictly sorted); the stdout and stderr channels contribute only
when their expectation is present, and the exit-code channel contributes
only when its expectation is present or the actual exit code is absent (in
which case `MissingExitCode` is emitted even without an expectation). -/
theorem c5_channel_order (t : Test) (out : Output)
    (h1 : utf8Valid out.stdout = true) (h2 : utf8Valid out.stderr = true) :
    ∃ l, verify_expectations t out = .ok l ∧
      (l.map channelIdx).Sorted (· < ·) ∧
      (∀ m ∈ l, channelIdx m = 0 → t.out.isSome = true) ∧
      (∀ m ∈ l, channelIdx m = 1 → t.err.isSome = true) ∧
      (∀ m ∈ l, channelIdx m = 2 → (t.exit_code.isSome = true ∨ out.exit_code = none)) := by
  rw [verify_expectations_eq t out h1 h2]
  rcases verify_stdout_shape t out.stdout with hs | ⟨a, ha, _, hs⟩ <;>
    rcases verify_stderr_shape t out.stderr with ht | ⟨b, hb, _, ht⟩ <;>
      rcases verify_exit_code_shape t out.exit_code with hx | ⟨e, c, he, _, _, hx⟩ | ⟨hc, hx⟩ <;>
        refine ⟨_, rfl, ?_, ?_, ?_, ?_⟩ <;>
          simp_all [channelIdx, List.sorted_cons]

/-- C5, witness: all three expectations present and all three mismatching. -/
theorem c5_channel_order_witness :
    ∃ l, verify_expectations ⟨[97], [99], some [1], some [2], some 5⟩ ⟨[3], [4], some 7⟩
        = .ok l ∧
      (l.map channelIdx).Sorted (· < ·) ∧
      (∀ m ∈ l, channelIdx m = 0 →
        (⟨[97], [99], some [1], some [2], some 5⟩ : Test).out.isSome = true) ∧
      (∀ m ∈ l, channelIdx m = 1 →
        (⟨[97], [99], some [1], some [2], some 5⟩ : Test).err.isSome = true) ∧
      (∀ m ∈ l, channelIdx m = 2 →
        ((⟨[97], [99], some [1], some [2], some 5⟩ : Test).exit_code.isSome = true ∨
          (⟨[3], [4], some 7⟩ : Output).exit_code = none)) :=
  c5_channel_order ⟨[97], [99], some [1], some [2], some 5⟩ ⟨[3], [4], some 7⟩
    (by decide) (by decide)

/-- C7: when the orchestrator runs to completion, it returns `Passed`
exactly when the failed tally is zero and `Failed` exactly otherwise. -/
theorem c7_outcome (exec : Test → Output) (tests : List Test) (s : RunState) (st : TestState)
    (h : run exec tests = some (s, .ok st)) :
    (st = .passed ↔ s.counts.failed = 0) ∧ (st = .failed ↔ s.counts.failed ≠ 0) := by
  unfold run at h
  rcases hl : runLoop exec tests ⟨⟨0, 0⟩, [], 0⟩ with _ | ⟨s1, r⟩ <;> rw [hl] at h
  · exact absurd h (by simp)
  · rcases r with e | u
    · exact absurd h (by simp)
    · have h' : (match s1.counts.failed with
          | 0 => some (s1, Except.ok TestState.passed)
          | _ => some (s1, Except.ok TestState.failed)) = some (s, .ok st) := h
      rcases hf : s1.counts.failed with _ | n <;> rw [hf] at h' <;> simp at h' <;>
        obtain ⟨h1, h2⟩ := h' <;> subst h1 <;> subst h2 <;> simp [hf]

/-- C7, witness: a single passing test yields `Passed` with zero failed. -/
theorem c7_outcome_witness :
    (TestState.passed = TestState.passed ↔ (⟨⟨1, 0⟩, [], 1⟩ : RunState).counts.failed = 0) ∧
      (TestState.passed = TestState.failed ↔ (⟨⟨1, 0⟩, [], 1⟩ : RunState).counts.failed ≠ 0) :=
  c7_outcome (fun _ => ⟨[], [], some 0⟩) [⟨[97], [99], none, none, none⟩] ⟨⟨1, 0⟩, [], 1⟩
    .passed rfl

/-- C9: each `run_test` step preserves the tally/failure-list invariant
(failure-list length equals the failed tally; the k-th record carries
ordinal k+1, so ordinals are consecutive from 1), a successful step
processes exactly one more test (passed + failed grows by one), and an
erroring step leaves tallies and failure list untouched. -/
theorem c9_tally_invariant (exec : Test → Output) (t : Test) (s s' : RunState)
    (r : Except CliError Unit) (hinv : StateInv s) (h : run_test exec t s = some (s', r)) :
    StateInv s' ∧
      (r = .ok () →
        s'.counts.passed + s'.counts.failed = s.counts.passed + s.counts.failed + 1) ∧
      (∀ e, r = .error e → s'.counts = s.counts ∧ s'.failures = s.failures) := by
  obtain ⟨hlen, hord⟩ := hinv
  unfold run_test at h
  repeat' split at h
  all_goals simp at h
  all_goals obtain ⟨h1, h2⟩ := h
  all_goals subst h1
  all_goals subst h2
  all_goals try exact ⟨⟨hlen, hord⟩, by simp, fun e' _ => ⟨rfl, rfl⟩⟩
  · -- passing test: failures unchanged, passed incremented
    refine ⟨⟨hlen, hord⟩, ?_, ?_⟩
    · intro _
      simp
      omega
    · intro e' he'
      cases he'
  · -- failing test: one record appended with the next ordinal
    refine ⟨⟨?_, ?_⟩, ?_, ?_⟩
    · simp [hlen]
    · intro k hk
      simp only [List.get_eq_getElem]
      rcases Nat.lt_or_ge k s.failures.length with hlt | hge
      · rw [List.getElem_append_left hlt]
        have := hord k hlt
        simpa [List.get_eq_getElem] using this
      · have hk' : k = s.failures.length := by
          simp at hk
          omega
        subst hk'
        simp [hlen]
    · intro _
      simp
      omega
    · intro e' he'
      cases he'

/-- C9, witness: one failing step from the empty initial state. -/
theorem c9_tally_invariant_witness :
    StateInv ⟨⟨0, 1⟩, [⟨[116], 1, [.stdOut ⟨[120], []⟩]⟩], 1⟩ ∧
      (Except.ok () = (.ok () : Except CliError Unit) →
        (⟨⟨0, 1⟩, [⟨[116], 1, [.stdOut ⟨[120], []⟩]⟩], 1⟩ : RunState).counts.passed +
            (⟨⟨0, 1⟩, [⟨[116], 1, [.stdOut ⟨[120], []⟩]⟩], 1⟩ : RunState).counts.failed =
          (⟨⟨0, 0⟩, [], 0⟩ : RunState).counts.passed +
            (⟨⟨0, 0⟩, [], 0⟩ : RunState).counts.failed + 1) ∧
      (∀ e, (.ok () : Except CliError Unit) = .error e →
        (⟨⟨0, 1⟩, [⟨[116], 1, [.stdOut ⟨[120], []⟩]⟩], 1⟩ : RunState).counts =
            (⟨⟨0, 0⟩, [], 0⟩ : RunState).counts ∧
          (⟨⟨0, 1⟩, [⟨[116], 1, [.stdOut ⟨[120], []⟩]⟩], 1⟩ : RunState).failures =
            (⟨⟨0, 0⟩, [], 0⟩ : RunState).failures) :=
  c9_tally_invariant (fun _ => ⟨[], [], some 0⟩) ⟨[116], [99], some [120], none, none⟩
    ⟨⟨0, 0⟩, [], 0⟩ ⟨⟨0, 1⟩, [⟨[116], 1, [.stdOut ⟨[120], []⟩]⟩], 1⟩ (.ok ())
    ⟨rfl, fun k h => absurd h (by simp)⟩ rfl

/-- C2, counterexample: a batch whose only TestCase has `err` set and
`exit_code` unset does fail with the `MissingExitCode` validation error, but
only after that TestCase's command has been executed — the spawn count at
the failure is 1, not 0 (and `ValidationError.missingExitCode` carries no
test name). -/
theorem c2_counterexample :
    run (fun _ => ⟨[], [], some 0⟩) [⟨[116], [99], none, some [98], none⟩]
      = some (⟨⟨0, 0⟩, [], 1⟩, .error (.validation .missingExitCode)) :=
  rfl

/-- C2, amended: validation is per-test, inside the loop, after spawning.
If every TestCase before the first one with `err` set and `exit_code` unset
processes without error, the run fails with the `MissingExitCode` validation
error when that TestCase is reached; by then its own command and those of
all earlier TestCases have been executed (prefix length + 1 spawns, never
zero), and the error value carries no TestCase name. -/
theorem c2_validation_after_spawn (exec : Test → Output) (pre : List Test) (t : Test)
    (rest : List Test) (s1 : RunState) (x : Str)
    (hpre : runLoop exec pre ⟨⟨0, 0⟩, [], 0⟩ = some (s1, .ok ()))
    (herr : t.err = some x) (hexit : t.exit_code = none) :
    run exec (pre ++ t :: rest)
        = some (⟨s1.counts, s1.failures, s1.spawned + 1⟩,
          .error (.validation .missingExitCode)) ∧
      s1.spawned = pre.length := by
  have hspawn := runLoop_spawned exec pre ⟨⟨0, 0⟩, [], 0⟩ s1 hpre
  have hloop : runLoop exec (pre ++ t :: rest) ⟨⟨0, 0⟩, [], 0⟩
      = some (⟨s1.counts, s1.failures, s1.spawned + 1⟩,
        .error (.validation .missingExitCode)) := by
    rw [runLoop_append, hpre]
    show runLoop exec (t :: rest) s1 = _
    simp only [runLoop]
    rw [run_test_validation_error exec t s1 x herr hexit]
  constructor
  · unfold run
    rw [hloop]
  · simpa using hspawn

/-- C2, witness: one clean TestCase, then the offending one, then one more;
the run stops at the offending TestCase with two commands already spawned. -/
theorem c2_validation_after_spawn_witness :
    run (fun _ => ⟨[], [], some 0⟩)
        (([⟨[112], [99], none, none, none⟩] : List Test) ++
          (⟨[113], [99], none, some [98], none⟩ : Test) :: [⟨[114], [99], none, none, none⟩])
        = some (⟨⟨1, 0⟩, [], 2⟩, .error (.validation .missingExitCode)) ∧
      (⟨⟨1, 0⟩, [], 1⟩ : RunState).spawned
        = ([⟨[112], [99], none, none, none⟩] : List Test).length :=
  c2_validation_after_spawn (fun _ => ⟨[], [], some 0⟩) [⟨[112], [99], none, none, none⟩]
    ⟨[113], [99], none, some [98], none⟩ [⟨[114], [99], none, none, none⟩]
    ⟨⟨1, 0⟩, [], 1⟩ [98] rfl rfl rfl

/-- C3: the code at the failing input of the claim — a batch of two
TestCases both named `"dup"` (bytes `[100, 117, 112]`) runs to completion:
both commands are executed (spawn count 2), both tests pass, and the run
returns `Passed`.  No duplicate-name validation exists in the code
(`ValidationError` in `lib.rs` has only the `MissingExitCode` variant, and
the TODO block in `lib.rs` lists "Verify that test names are unique" as
unimplemented), contradicting the claim's `DuplicateName` abort with zero
commands executed. -/
theorem c3_duplicate_names_not_detected :
    run (fun _ => ⟨[], [], some 0⟩)
        [⟨[100, 117, 112], [99], none, none, none⟩,
          ⟨[100, 117, 112], [99], none, none, none⟩]
      = some (⟨⟨2, 0⟩, [], 2⟩, .ok .passed) :=
  rfl

/-- C8: when a TestCase's captured stdout or stderr bytes are not valid
UTF-8, `run_test` returns an error (the UTF-8 decoding error whenever the
TestCase passes validation), the tallies and the failure list are left
untouched — no mismatch is recorded, no failure record is produced, and the
test is not counted as failed — and the per-test loop stops there,
surfacing the error to the caller. -/
theorem c8_decoding_failure (exec : Test → Output) (t : Test) (s : RunState)
    (hbad : utf8Valid (exec t).stdout = false ∨ utf8Valid (exec t).stderr = false) :
    (∃ e, run_test exec t s = some (⟨s.counts, s.failures, s.spawned + 1⟩, .error e)) ∧
      (validate_test t = .ok () →
        run_test exec t s
          = some (⟨s.counts, s.failures, s.spawned + 1⟩, .error .utf8Error)) ∧
      (∀ rest, ∃ e, runLoop exec (t :: rest) s
        = some (⟨s.counts, s.failures, s.spawned + 1⟩, .error e)) := by
  have key : run_test exec t s = some (⟨s.counts, s.failures, s.spawned + 1⟩,
      .error (match validate_test t with | .error e => e | .ok _ => .utf8Error)) := by
    unfold run_test
    rcases hv : validate_test t with e | u
    · rfl
    · rcases hbad with hb | hb
      · have hd : from_utf8 (exec t).stdout = .error .utf8Error := by
          simp [from_utf8, hb]
        rw [hd]
      · by_cases hs : utf8Valid (exec t).stdout = true
        · have hd1 : from_utf8 (exec t).stdout = .ok (exec t).stdout := by
            simp [from_utf8, hs]
          have hd2 : from_utf8 (exec t).stderr = .error .utf8Error := by
            simp [from_utf8, hb]
          rw [hd1, hd2]
        · have hd : from_utf8 (exec t).stdout = .error .utf8Error := by
            simp [from_utf8, hs]
          rw [hd]
  refine ⟨⟨_, key⟩, ?_, ?_⟩
  · intro hv
    simpa [hv] using key
  · intro rest
    refine ⟨match validate_test t with | .error e => e | .ok _ => .utf8Error, ?_⟩
    simp only [runLoop]
    rw [key]

/-- C8, witness: a TestCase whose command produces the invalid byte `0xFF`
on stdout. -/
theorem c8_decoding_failure_witness :
    (∃ e, run_test (fun _ => ⟨[255], [], some 0⟩) ⟨[116], [99], none, none, none⟩
        ⟨⟨0, 0⟩, [], 0⟩
      = some (⟨(⟨⟨0, 0⟩, [], 0⟩ : RunState).counts, (⟨⟨0, 0⟩, [], 0⟩ : RunState).failures,
          (⟨⟨0, 0⟩, [], 0⟩ : RunState).spawned + 1⟩, .error e)) ∧
      (validate_test ⟨[116], [99], none, none, none⟩ = .ok () →
        run_test (fun _ => ⟨[255], [], some 0⟩) ⟨[116], [99], none, none, none⟩
            ⟨⟨0, 0⟩, [], 0⟩
          = some (⟨(⟨⟨0, 0⟩, [], 0⟩ : RunState).counts,
              (⟨⟨0, 0⟩, [], 0⟩ : RunState).failures,
              (⟨⟨0, 0⟩, [], 0⟩ : RunState).spawned + 1⟩, .error .utf8Error)) ∧
      (∀ rest, ∃ e, runLoop (fun _ => ⟨[255], [], some 0⟩)
          (⟨[116], [99], none, none, none⟩ :: rest) ⟨⟨0, 0⟩, [], 0⟩
        = some (⟨(⟨⟨0, 0⟩, [], 0⟩ : RunState).counts,
            (⟨⟨0, 0⟩, [], 0⟩ : RunState).failures,
            (⟨⟨0, 0⟩, [], 0⟩ : RunState).spawned + 1⟩, .error e)) :=
  c8_decoding_failure (fun _ => ⟨[255], [], some 0⟩) ⟨[116], [99], none, none, none⟩
    ⟨⟨0, 0⟩, [], 0⟩ (Or.inl (by decide))

/-- C10, counterexample: on a TestCase with no expectations and a result
with no exit code (streams valid UTF-8), the inline checks of `run_test`
produce no failed expectation while `verify_expectations` produces
`MissingExitCode` — the two in-source verifier implementations disagree. -/
theorem c10_counterexample :
    libChecks ⟨[109], [99], none, none, none⟩ [] [] none = some [] ∧
      verify_expectations ⟨[109], [99], none, none, none⟩ ⟨[], [], none⟩
        = .ok [.missingExitCode] :=
  ⟨rfl, rfl⟩

/-- C10, amended: whenever the result's exit code is present (and the
streams decode), the inline checks of `run_test` and `verify_expectations`
produce the same sequence of failed expectations — same variants in the
same order with the same expected/actual payloads, via the
variant-to-variant injection `liftLib`. -/
theorem c10_equiv_exit_present (t : Test) (out : Output) (c : Int)
    (h1 : utf8Valid out.stdout = true) (h2 : utf8Valid out.stderr = true)
    (hc : out.exit_code = some c) :
    ∃ l, libChecks t out.stdout out.stderr out.exit_code = some l ∧
      verify_expectations t out = .ok (l.map liftLib) := by
  rw [verify_expectations_eq t out h1 h2]
  rcases ho : t.out with _ | eo <;> rcases he : t.err with _ | ee <;>
    rcases hx : t.exit_code with _ | ec
  all_goals try by_cases hso : out.stdout = eo
  all_goals try by_cases hse : out.stderr = ee
  all_goals try by_cases hxc : c = ec
  all_goals
    simp_all [libChecks, verify_stdout, verify_stderr, verify_exit_code, liftLib, ne_comm]

/-- C10, witness: stdout and exit code mismatch, stderr matches. -/
theorem c10_equiv_exit_present_witness :
    ∃ l, libChecks ⟨[122], [99], some [5], some [6], some 1⟩ [7] [6] (some 2) = some l ∧
      verify_expectations ⟨[122], [99], some [5], some [6], some 1⟩ ⟨[7], [6], some 2⟩
        = .ok (l.map liftLib) :=
  c10_equiv_exit_present ⟨[122], [99], some [5], some [6], some 1⟩ ⟨[7], [6], some 2⟩ 2
    (by decide) (by decide) rfl

end CliTest
